import Mathlib

/-!
# Transaction submitter of `comp4541/script.js`

A shallow embedding of the three click handlers installed by `initApp`
(`createTokenButton`, `poolETHButton`, `swapButton`) together with the
JavaScript number arithmetic they rely on.

* Form fields are strings, as `HTMLInputElement.value` always is.
* Base-unit (wei) amounts returned by `web3.utils.toWei` are decimal integer
  strings; they are represented by the integer they denote.
* `priceInWei * 0.7` is a JavaScript `Number` product, i.e. an IEEE-754
  binary64 multiplication of the double nearest to the integer and the double
  nearest to `0.7`.  Doubles are represented exactly as signed dyadic
  rationals `num / 2 ^ scale`.
* The wallet, the ledger and the browser are external: their answers are
  fields of `Env`.
-/

namespace Comp4541

/-! ## JavaScript numbers (IEEE-754 binary64) -/

/-- A JavaScript `Number`: a finite double `± num / 2 ^ scale`, an infinity, or `NaN`. -/
inductive JSNumber where
  | finite (neg : Bool) (num : Nat) (scale : Nat)
  | inf (neg : Bool)
  | nan
  deriving DecidableEq, Repr

/-- Cancel common factors of two between a numerator and the power-of-two
denominator `2 ^ scale`, so that every value has one representation. -/
def reduceDyadic : Nat → Nat → Nat × Nat
  | num, 0 => (num, 0)
  | num, scale + 1 =>
    if num % 2 = 0 then reduceDyadic (num / 2) scale else (num, scale + 1)

/-- Number of binary digits of `n` within `fuel` halvings (`bitsAux n n` is the
bit length of `n`, zero for zero). -/
def bitsAux : Nat → Nat → Nat
  | 0, _ => 0
  | fuel + 1, n => if n = 0 then 0 else bitsAux fuel (n / 2) + 1

/-- Bit length: the least `b` with `n < 2 ^ b`. -/
def bitLength (n : Nat) : Nat := bitsAux n n

/-- Round-to-nearest, ties-to-even, of the non-negative dyadic `n / 2 ^ s` to
binary64: at most 53 significant bits, no bit below `2 ^ (-1074)`, and
overflow to infinity from `2 ^ 1024` on (`m / 2 ^ s ≥ 2 ^ 1024` exactly when
`m` has more than `1024 + s` bits). -/
def roundDyadic (neg : Bool) (n s : Nat) : JSNumber :=
  let k := max (bitLength n - 53) (s - 1074)
  let q := n / 2 ^ k
  let r := n % 2 ^ k
  let q' := if 2 ^ k < 2 * r ∨ (2 * r = 2 ^ k ∧ q % 2 = 1) then q + 1 else q
  let m := q' * 2 ^ k
  if 1024 + s < bitLength m then JSNumber.inf neg
  else JSNumber.finite neg (reduceDyadic m s).1 (reduceDyadic m s).2

/-- The JavaScript conversion `ToNumber` applied to the decimal rendering of an
integer (the string `web3.utils.toWei` returns): the nearest double. -/
def toNumber (w : Int) : JSNumber :=
  roundDyadic (decide (w < 0)) w.natAbs 0

/-- The JavaScript `*` on two numbers: the exact product, rounded once. -/
def JSNumber.mul : JSNumber → JSNumber → JSNumber
  | .finite na a sa, .finite nb b sb => roundDyadic (na != nb) (a * b) (sa + sb)
  | .finite na a _, .inf nb => if a = 0 then .nan else .inf (na != nb)
  | .inf na, .finite nb b _ => if b = 0 then .nan else .inf (na != nb)
  | .inf na, .inf nb => .inf (na != nb)
  | .nan, _ => .nan
  | _, .nan => .nan

/-- The numeric literal `0.7` of the source: the double nearest to 7/10,
`0x3FE6666666666666 = 6305039478318694 / 2 ^ 53`, in lowest terms. -/
def pointSeven : JSNumber := .finite false 3152519739159347 52

/-- The exact rational value of a finite number; `none` for `±Infinity` and `NaN`. -/
def JSNumber.toRat? : JSNumber → Option ℚ
  | .finite neg num scale => some ((if neg then -1 else 1) * (num : ℚ) / 2 ^ scale)
  | _ => none

/-- A number is an integer when it is finite with denominator one. -/
def JSNumber.isInteger : JSNumber → Bool
  | .finite _ num scale => num % 2 ^ scale == 0
  | _ => false

/-! ## Unit conversion -/

/-- Errors a handler can end with. -/
inductive JSError where
  | referenceError (name : String)
  | invalidAmount (input : String)
  | rejected (reason : String)
  deriving DecidableEq, Repr

/-- Value of a string of decimal digits, most significant first; `none` when a
character is not a digit. -/
def digitsValue : List Char → Nat → Option Nat
  | [], acc => some acc
  | c :: cs, acc =>
    if c.isDigit then digitsValue cs (acc * 10 + (c.toNat - 48)) else none

/-- Modelled from the spec: the wallet library's currency-unit conversion
`web3.utils.toWei(·, 'ether')` ("decimal-string to base-unit integer", 18-decimal
fixed point, exact) is not part of this repository.  A decimal string is an
optional `-`, digits, and optionally a `.` followed by at most 18 digits, with a
digit on at least one side; it denotes `whole * 10 ^ 18 + fraction` padded to 18
places.  Every other string is rejected. -/
def toWei (s : String) : Except JSError Int :=
  let cs := s.toList
  let negative := cs.head? = some '-'
  let body := if negative then cs.drop 1 else cs
  let whole := body.takeWhile (· ≠ '.')
  let rest := body.dropWhile (· ≠ '.')
  let fraction := rest.drop 1
  if body.isEmpty || body == ['.'] || fraction.length > 18 then
    .error (.invalidAmount s)
  else
    match digitsValue whole 0, digitsValue fraction 0 with
    | some w, some f =>
      let wei : Int := ((w * 10 ^ 18 + f * 10 ^ (18 - fraction.length) : Nat) : Int)
      .ok (if negative then -wei else wei)
    | _, _ => .error (.invalidAmount s)

/-! ## The page, the wallet and the contract calls -/

/-- An account identifier as the wallet hands it out. -/
abbrev Account := String

/-- The seven input fields the handlers read through `document.getElementById(…).value`. -/
structure Form where
  tokenPrice : String
  totalSupply : String
  requestId : String
  tokensToPurchase : String
  tokenIn : String
  amountIn : String
  tokenOut : String
  deriving DecidableEq, Repr

/-- A call built by `tokenFactory.methods.<name>(…)`, with its arguments as the
handler passes them: base-unit amounts as integers, form strings unchanged. -/
inductive MethodCall where
  | createTokenRequest (price : Int) (totalSupply : String)
  | poolEth (requestId : String) (tokensToPurchase : String)
  | swap (tokenIn : String) (amountIn : Int) (tokenOut : String)
  deriving DecidableEq, Repr

/-- What a handler puts under the `value` key: the number `priceInWei * 0.7`, or
the base-unit string `ethToPool`. -/
inductive PayValue where
  | number (x : JSNumber)
  | wei (w : Int)
  deriving DecidableEq, Repr

/-- The options object given to `.send(…)`.  `sender` is the `from` key; it is
`none` when `accounts[0]` is `undefined`.  `value` is `none` when the object has
no `value` key. -/
structure SendOptions where
  sender : Option Account
  value : Option PayValue
  deriving DecidableEq, Repr

/-- What a handler does that is visible outside it. -/
inductive Effect where
  | send (call : MethodCall) (opts : SendOptions)
  | alert (msg : String)
  deriving DecidableEq, Repr

/-- A finished handler invocation: its effects in order, and whether its promise
resolved or rejected. -/
structure Run where
  trace : List Effect
  result : Except JSError Unit

/-- The calls submitted during a run, in order. -/
def submissions (r : Run) : List (MethodCall × SendOptions) :=
  r.trace.filterMap fun
    | .send call opts => some (call, opts)
    | .alert _ => none

/-- The notices shown during a run, in order. -/
def notices (r : Run) : List String :=
  r.trace.filterMap fun
    | .send _ _ => none
    | .alert msg => some msg

/-- A value a binding holds when a handler looks it up. -/
inductive JSValue where
  | text (s : String)
  | accountList (accounts : List Account)
  | object (name : String)
  deriving DecidableEq, Repr

/-- The external collaborators.  `requestAccounts` is the outcome of
`web3.eth.requestAccounts()`; `settle` is how the wallet and ledger settle a
submitted call; `productText a b` is the text of `(a * b).toString()`. -/
structure Env where
  requestAccounts : Except JSError (List Account)
  settle : MethodCall → SendOptions → Except JSError Unit
  productText : String → JSValue → String

/-- Submit a call and await it: the failure of the submission is the failure of
the handler (nothing is caught), otherwise the notice follows. -/
def sendThenAlert (env : Env) (call : MethodCall) (opts : SendOptions) (msg : String) : Run :=
  match env.settle call opts with
  | .error e => ⟨[.send call opts], .error e⟩
  | .ok () => ⟨[.send call opts, .alert msg], .ok ()⟩

/-- The `createTokenButton` click handler (script.js lines 72-81). -/
def createTokenHandler (env : Env) (accounts : List Account) (form : Form) : Run :=
  let price := form.tokenPrice
  let totalSupply := form.totalSupply
  match toWei price with
  | .error e => ⟨[], .error e⟩
  | .ok priceInWei =>
    sendThenAlert env (.createTokenRequest priceInWei totalSupply)
      { sender := accounts[0]?,
        value := some (.number ((toNumber priceInWei).mul pointSeven)) }
      "Token request created!"

/-- Identifier lookup through a chain of lexical scopes, innermost first. -/
def resolve : List (List (String × JSValue)) → String → Except JSError JSValue
  | [], name => .error (.referenceError name)
  | scope :: outer, name =>
    match scope.lookup name with
    | some v => .ok v
    | none => resolve outer name

/-- The bindings visible from the body of the `poolETHButton` handler when line
86 is evaluated: its own `const`s declared so far, the `const`s of `initApp`,
the top-level declarations of the script, and the browser globals the script
refers to. -/
def poolScope (accounts : List Account) (form : Form) : List (List (String × JSValue)) :=
  [ [("requestId", .text form.requestId), ("tokensToPurchase", .text form.tokensToPurchase)],
    [("web3", .object "Web3"), ("accounts", .accountList accounts),
     ("tokenFactory", .object "Contract")],
    [("DEX_ADDRESS", .text "0x2653561f7eF320ae105495Ce829A020a9ddd176E"),
     ("TokenFactoryABI", .object "Array"), ("initApp", .object "Function")],
    [("window", .object "Window"), ("document", .object "Document"),
     ("Web3", .object "Function"), ("alert", .object "Function")] ]

/-- The `poolETHButton` click handler (script.js lines 83-92).  Every identifier
of the body except `price` is declared in the handler or in `initApp` and is a
variable of the embedding; `price` is looked up through `poolScope`. -/
def poolETHHandler (env : Env) (accounts : List Account) (form : Form) : Run :=
  let requestId := form.requestId
  let tokensToPurchase := form.tokensToPurchase
  match resolve (poolScope accounts form) "price" with
  | .error e => ⟨[], .error e⟩
  | .ok price =>
    match toWei (env.productText tokensToPurchase price) with
    | .error e => ⟨[], .error e⟩
    | .ok ethToPool =>
      sendThenAlert env (.poolEth requestId tokensToPurchase)
        { sender := accounts[0]?, value := some (.wei ethToPool) }
        "Successfully pooled ETH!"

/-- The `swapButton` click handler (script.js lines 94-103). -/
def swapHandler (env : Env) (accounts : List Account) (form : Form) : Run :=
  let tokenIn := form.tokenIn
  let amountIn := form.amountIn
  let tokenOut := form.tokenOut
  match toWei amountIn with
  | .error e => ⟨[], .error e⟩
  | .ok amountInWei =>
    sendThenAlert env (.swap tokenIn amountInWei tokenOut)
      { sender := accounts[0]?, value := none }
      "Tokens swapped!"

/-- The three trigger elements. -/
inductive Button where
  | createTokenButton
  | poolETHButton
  | swapButton
  deriving DecidableEq, Repr

/-- The `onclick` property of each trigger element. -/
structure Page where
  createTokenButton : Option (Form → Run)
  poolETHButton : Option (Form → Run)
  swapButton : Option (Form → Run)

/-- The page as loaded: no handler installed. -/
def Page.blank : Page := ⟨none, none, none⟩

/-- The `onclick` property of one trigger element. -/
def Page.onclick (page : Page) : Button → Option (Form → Run)
  | .createTokenButton => page.createTokenButton
  | .poolETHButton => page.poolETHButton
  | .swapButton => page.swapButton

/-- The function `initApp` (script.js lines 67-104): the outcome of its promise
and the page it leaves.  `env.requestAccounts` is the outcome of lines 68-69
(the provider is wrapped, then asked for accounts); when it is a rejection,
`initApp` rejects at the `await`, before any `onclick` assignment. -/
def initApp (env : Env) (page : Page) : Except JSError Unit × Page :=
  match env.requestAccounts with
  | .error e => (.error e, page)
  | .ok accounts =>
    (.ok (),
     { createTokenButton := some (createTokenHandler env accounts),
       poolETHButton := some (poolETHHandler env accounts),
       swapButton := some (swapHandler env accounts) })

/-- A click on a trigger element with the form as filled in: runs the installed
handler, and does nothing when none is installed. -/
def click (page : Page) (b : Button) (form : Form) : Run :=
  match page.onclick b with
  | some handler => handler form
  | none => ⟨[], .ok ()⟩

/-- The page after `window.onload = initApp` has fired. -/
def loaded (env : Env) : Page := (initApp env Page.blank).2

/-- A wallet that authorises two accounts and settles every call; used for
closed instances. -/
def demoEnv : Env :=
  { requestAccounts := .ok ["0xA11ce", "0xB0b"],
    settle := fun _ _ => .ok (),
    productText := fun _ _ => "NaN" }

/-- A wallet whose ledger rejects every submission. -/
def rejectingEnv : Env :=
  { requestAccounts := .ok ["0xA11ce", "0xB0b"],
    settle := fun _ _ => .error (.rejected "User denied transaction signature"),
    productText := fun _ _ => "NaN" }

/-- A wallet that refuses authorisation. -/
def lockedEnv : Env :=
  { requestAccounts := .error (.rejected "User rejected the request"),
    settle := fun _ _ => .ok (),
    productText := fun _ _ => "NaN" }

/-- A form filled in for all three operations. -/
def demoForm : Form :=
  { tokenPrice := "1.0", totalSupply := "1000", requestId := "3", tokensToPurchase := "5",
    tokenIn := "0xAAAA", amountIn := "2.5", tokenOut := "0xBBBB" }

/-- For one run: the notice is shown exactly when a submitted call settled, and
a failed submission is the run's failure, with no notice and no second
submission. -/
def NoticeIffSettled (env : Env) (run : Run) : Prop :=
  ((notices run ≠ []) ↔ ∃ c ∈ submissions run, env.settle c.1 c.2 = .ok ()) ∧
  ∀ c ∈ submissions run, ∀ e, env.settle c.1 c.2 = .error e →
    run.result = .error e ∧ notices run = [] ∧ submissions run = [c]

/-! ## Facts about the number model -/

theorem pointSeven_nearest :
    10 * 6305039478318694 + 4 = 7 * 2 ^ 53 ∧ 2 ^ 52 ≤ 6305039478318694 ∧
      6305039478318694 < 2 ^ 53 ∧ 6305039478318694 = 2 * 3152519739159347 := by
  decide

theorem bitsAux_le_iff (fuel : Nat) : ∀ n b, n ≤ fuel → (bitsAux fuel n ≤ b ↔ n < 2 ^ b) := by
  induction fuel with
  | zero =>
    intro n b hn
    have h0 : n = 0 := by omega
    subst h0
    simp [bitsAux]
  | succ f ih =>
    intro n b hn
    by_cases h0 : n = 0
    · subst h0
      simp [bitsAux]
    · have hdiv : n / 2 ≤ f := by omega
      cases b with
      | zero =>
        simp [bitsAux, h0]
      | succ c =>
        have := ih (n / 2) c hdiv
        simp only [bitsAux, h0, if_false, Nat.add_le_add_iff_right, this]
        rw [Nat.div_lt_iff_lt_mul (by decide : 0 < 2), pow_succ]

theorem bitLength_le_iff (n b : Nat) : bitLength n ≤ b ↔ n < 2 ^ b :=
  bitsAux_le_iff n n b (le_refl n)

/-! ## Facts about the handlers -/

theorem submissions_sendThenAlert (env : Env) (call : MethodCall) (opts : SendOptions)
    (msg : String) : submissions (sendThenAlert env call opts msg) = [(call, opts)] := by
  unfold sendThenAlert
  cases env.settle call opts <;> rfl

theorem notices_sendThenAlert (env : Env) (call : MethodCall) (opts : SendOptions)
    (msg : String) :
    notices (sendThenAlert env call opts msg) =
      match env.settle call opts with
      | .ok () => [msg]
      | .error _ => [] := by
  unfold sendThenAlert
  cases env.settle call opts <;> rfl

theorem result_sendThenAlert (env : Env) (call : MethodCall) (opts : SendOptions)
    (msg : String) : (sendThenAlert env call opts msg).result = env.settle call opts := by
  unfold sendThenAlert
  cases env.settle call opts <;> rfl

theorem mem_trace_iff_mem_submissions (run : Run) (call : MethodCall) (opts : SendOptions) :
    Effect.send call opts ∈ run.trace ↔ (call, opts) ∈ submissions run := by
  unfold submissions
  rw [List.mem_filterMap]
  constructor
  · intro h
    exact ⟨_, h, rfl⟩
  · rintro ⟨eff, hmem, heq⟩
    cases eff with
    | send c o =>
      simp only [Option.some.injEq, Prod.mk.injEq] at heq
      obtain ⟨rfl, rfl⟩ := heq
      exact hmem
    | alert m => simp at heq

theorem createTokenHandler_of_valid (env : Env) (accounts : List Account) (form : Form)
    (w : Int) (h : toWei form.tokenPrice = .ok w) :
    createTokenHandler env accounts form =
      sendThenAlert env (.createTokenRequest w form.totalSupply)
        { sender := accounts[0]?, value := some (.number ((toNumber w).mul pointSeven)) }
        "Token request created!" := by
  simp only [createTokenHandler, h]

theorem createTokenHandler_of_invalid (env : Env) (accounts : List Account) (form : Form)
    (e : JSError) (h : toWei form.tokenPrice = .error e) :
    createTokenHandler env accounts form = ⟨[], .error e⟩ := by
  simp only [createTokenHandler, h]

theorem swapHandler_of_valid (env : Env) (accounts : List Account) (form : Form)
    (w : Int) (h : toWei form.amountIn = .ok w) :
    swapHandler env accounts form =
      sendThenAlert env (.swap form.tokenIn w form.tokenOut)
        { sender := accounts[0]?, value := none } "Tokens swapped!" := by
  simp only [swapHandler, h]

theorem swapHandler_of_invalid (env : Env) (accounts : List Account) (form : Form)
    (e : JSError) (h : toWei form.amountIn = .error e) :
    swapHandler env accounts form = ⟨[], .error e⟩ := by
  simp only [swapHandler, h]

theorem poolETHHandler_throws (env : Env) (accounts : List Account) (form : Form) :
    poolETHHandler env accounts form = ⟨[], .error (.referenceError "price")⟩ := by
  rfl

theorem noticeIffSettled_sendThenAlert (env : Env) (call : MethodCall) (opts : SendOptions)
    (msg : String) : NoticeIffSettled env (sendThenAlert env call opts msg) := by
  unfold NoticeIffSettled
  rw [submissions_sendThenAlert, notices_sendThenAlert, result_sendThenAlert]
  cases hs : env.settle call opts with
  | error e => simp [hs]
  | ok u => cases u; simp [hs]

theorem noticeIffSettled_of_no_effect (env : Env) (r : Except JSError Unit) :
    NoticeIffSettled env ⟨[], r⟩ := by
  simp [NoticeIffSettled, submissions, notices]

set_option maxRecDepth 100000 in
theorem seventyPercent_of_ninety :
    toWei "0.00000000000000009" = .ok 90 ∧
      (toNumber 90).mul pointSeven = .finite false 8866461766385663 47 ∧
      (JSNumber.finite false 8866461766385663 47).isInteger = false ∧
      8866461766385663 + 1 = 63 * 2 ^ 47 := by
  refine ⟨rfl, ?_, ?_, ?_⟩ <;> decide

/-! ## The claims -/

set_option maxRecDepth 100000 in
/-- C1 (defect at a concrete price): for the price string "1.00000000000000001",
whose base-unit conversion is 1000000000000000010, the create-token handler
attaches the payable value 700000000000000000, and ten times that value is not
seven times the converted price: the attached value is 7 base units short of 70%. -/
theorem createToken_value_misses_seventy_percent (env : Env) (accounts : List Account) :
    submissions (createTokenHandler env accounts
        { demoForm with tokenPrice := "1.00000000000000001" }) =
      [(.createTokenRequest 1000000000000000010 "1000",
        { sender := accounts[0]?,
          value := some (.number (.finite false 700000000000000000 0)) })] ∧
    (JSNumber.finite false 700000000000000000 0).toRat? = some 700000000000000000 ∧
    (700000000000000000 : ℚ) * 10 ≠ 1000000000000000010 * 7 := by
  have hw : toWei "1.00000000000000001" = .ok 1000000000000000010 := by rfl
  refine ⟨?_, ?_, by norm_num⟩
  · rw [createTokenHandler_of_valid env accounts _ 1000000000000000010 hw,
      submissions_sendThenAlert]
    have hv : (toNumber 1000000000000000010).mul pointSeven =
        .finite false 700000000000000000 0 := by decide
    rw [hv]
    rfl
  · simp [JSNumber.toRat?]

/-- C2: once authorisation returned `accounts`, every call submitted by a click
on any of the three buttons, for any form contents, has `accounts[0]` as its
sender. -/
theorem sender_is_first_account (env : Env) (accounts : List Account) (b : Button)
    (form : Form) (call : MethodCall) (opts : SendOptions)
    (hauth : env.requestAccounts = .ok accounts)
    (hsend : (call, opts) ∈ submissions (click (loaded env) b form)) :
    opts.sender = accounts[0]? := by
  cases b with
  | createTokenButton =>
    have hrun : click (loaded env) .createTokenButton form =
        createTokenHandler env accounts form := by
      simp [click, loaded, initApp, hauth, Page.onclick]
    rw [hrun] at hsend
    cases hw : toWei form.tokenPrice with
    | error e =>
      rw [createTokenHandler_of_invalid env accounts form e hw] at hsend
      simp [submissions] at hsend
    | ok w =>
      rw [createTokenHandler_of_valid env accounts form w hw, submissions_sendThenAlert] at hsend
      simp only [List.mem_singleton, Prod.mk.injEq] at hsend
      rw [hsend.2]
  | poolETHButton =>
    have hrun : click (loaded env) .poolETHButton form = poolETHHandler env accounts form := by
      simp [click, loaded, initApp, hauth, Page.onclick]
    rw [hrun, poolETHHandler_throws] at hsend
    simp [submissions] at hsend
  | swapButton =>
    have hrun : click (loaded env) .swapButton form = swapHandler env accounts form := by
      simp [click, loaded, initApp, hauth, Page.onclick]
    rw [hrun] at hsend
    cases hw : toWei form.amountIn with
    | error e =>
      rw [swapHandler_of_invalid env accounts form e hw] at hsend
      simp [submissions] at hsend
    | ok w =>
      rw [swapHandler_of_valid env accounts form w hw, submissions_sendThenAlert] at hsend
      simp only [List.mem_singleton, Prod.mk.injEq] at hsend
      rw [hsend.2]

set_option maxRecDepth 100000 in
/-- C2 at a concrete input: with accounts `["0xA11ce", "0xB0b"]` authorised, the
call submitted by a click on the create-token button is sent from `"0xA11ce"`. -/
theorem sender_is_first_account_witness :
    (MethodCall.createTokenRequest 1000000000000000000 "1000",
        ({ sender := some "0xA11ce",
           value := some (.number (.finite false 700000000000000000 0)) } : SendOptions)) ∈
      submissions (click (loaded demoEnv) .createTokenButton demoForm) ∧
    (some "0xA11ce" : Option Account) = ["0xA11ce", "0xB0b"][0]? :=
  ⟨by decide,
   sender_is_first_account demoEnv ["0xA11ce", "0xB0b"] .createTokenButton demoForm
     (.createTokenRequest 1000000000000000000 "1000")
     { sender := some "0xA11ce", value := some (.number (.finite false 700000000000000000 0)) }
     rfl (by decide)⟩

/-- C3: for every request identifier and token quantity (and every wallet), the
pool-funds handler ends with a reference error for `price`, having produced no
effect at all: no call submitted, no notice shown. -/
theorem pool_throws_before_any_call (env : Env) (accounts : List Account) (form : Form) :
    (poolETHHandler env accounts form).result = .error (.referenceError "price") ∧
      (poolETHHandler env accounts form).trace = [] ∧
      submissions (poolETHHandler env accounts form) = [] ∧
      notices (poolETHHandler env accounts form) = [] := by
  rw [poolETHHandler_throws]
  exact ⟨rfl, rfl, rfl, rfl⟩

/-- C4: every call submitted by the swap handler carries send options without a
`value` key, whatever the token addresses and the amount are. -/
theorem swap_attaches_no_value (env : Env) (accounts : List Account) (form : Form)
    (call : MethodCall) (opts : SendOptions)
    (hsend : (call, opts) ∈ submissions (swapHandler env accounts form)) :
    opts.value = none := by
  cases hw : toWei form.amountIn with
  | error e =>
    rw [swapHandler_of_invalid env accounts form e hw] at hsend
    simp [submissions] at hsend
  | ok w =>
    rw [swapHandler_of_valid env accounts form w hw, submissions_sendThenAlert] at hsend
    simp only [List.mem_singleton, Prod.mk.injEq] at hsend
    rw [hsend.2]

set_option maxRecDepth 100000 in
/-- C4 at a concrete input: swapping "2.5" submits a call whose options have no value. -/
theorem swap_attaches_no_value_witness :
    (MethodCall.swap "0xAAAA" 2500000000000000000 "0xBBBB",
        ({ sender := some "0xA11ce", value := none } : SendOptions)) ∈
      submissions (swapHandler demoEnv ["0xA11ce", "0xB0b"] demoForm) ∧
    ({ sender := some "0xA11ce", value := none } : SendOptions).value = none :=
  ⟨by decide,
   swap_attaches_no_value demoEnv ["0xA11ce", "0xB0b"] demoForm
     (.swap "0xAAAA" 2500000000000000000 "0xBBBB") { sender := some "0xA11ce", value := none }
     (by decide)⟩

set_option maxRecDepth 100000 in
/-- C5 (defect at a concrete price): for the valid price string
"0.00000000000000009", whose base-unit conversion is 90, the create-token
handler passes the integer 90 as price argument but attaches as payable value the
number 8866461766385663 / 2 ^ 47 (62.99999999999999), which is not an integer,
although 70% of 90 is the whole number 63. -/
theorem createToken_value_fractional_at_ninety (env : Env) (accounts : List Account) :
    submissions (createTokenHandler env accounts
        { demoForm with tokenPrice := "0.00000000000000009" }) =
      [(.createTokenRequest 90 "1000",
        { sender := accounts[0]?,
          value := some (.number (.finite false 8866461766385663 47)) })] ∧
    (JSNumber.finite false 8866461766385663 47).isInteger = false ∧
    (JSNumber.finite false 8866461766385663 47).toRat? = some (63 - 1 / 2 ^ 47) ∧
    (90 : ℚ) * 7 = 63 * 10 := by
  have hw : toWei "0.00000000000000009" = .ok 90 := by rfl
  refine ⟨?_, by decide, ?_, by norm_num⟩
  · rw [createTokenHandler_of_valid env accounts _ 90 hw, submissions_sendThenAlert]
    have hv : (toNumber 90).mul pointSeven = .finite false 8866461766385663 47 := by decide
    rw [hv]
    rfl
  · simp only [JSNumber.toRat?]
    norm_num

set_option maxRecDepth 100000 in
/-- C6: for price "1.0" and any total supply (and any wallet and other fields),
the create-token handler submits exactly `createTokenRequest(10 ^ 18, totalSupply)`
with payable value the number `7 * 10 ^ 17`. -/
theorem createToken_price_one (env : Env) (accounts : List Account) (form : Form) :
    submissions (createTokenHandler env accounts { form with tokenPrice := "1.0" }) =
      [(.createTokenRequest (10 ^ 18) form.totalSupply,
        { sender := accounts[0]?,
          value := some (.number (.finite false (7 * 10 ^ 17) 0)) })] ∧
    (JSNumber.finite false (7 * 10 ^ 17) 0).toRat? = some (7 * 10 ^ 17) := by
  have hw : toWei "1.0" = .ok (10 ^ 18) := by rfl
  constructor
  · rw [createTokenHandler_of_valid env accounts _ (10 ^ 18) hw, submissions_sendThenAlert]
    have hv : (toNumber (10 ^ 18)).mul pointSeven = .finite false (7 * 10 ^ 17) 0 := by decide
    rw [hv]
  · simp only [JSNumber.toRat?]
    norm_num

/-- C7: for a valid amount string, the swap handler submits exactly one call,
`swap(tokenIn, toWei(amountIn), tokenOut)`, the two addresses unchanged and in
that order, sent from `accounts[0]` with no value. -/
theorem swap_submits_converted_amount (env : Env) (accounts : List Account) (form : Form)
    (w : Int) (h : toWei form.amountIn = .ok w) :
    submissions (swapHandler env accounts form) =
      [(.swap form.tokenIn w form.tokenOut, { sender := accounts[0]?, value := none })] := by
  rw [swapHandler_of_valid env accounts form w h, submissions_sendThenAlert]

set_option maxRecDepth 100000 in
/-- C7 at tokenIn = "0xAAAA", amountIn = "2.5", tokenOut = "0xBBBB": the
parameters are ("0xAAAA", 25 * 10 ^ 17, "0xBBBB"). -/
theorem swap_submits_converted_amount_witness :
    toWei "2.5" = .ok (25 * 10 ^ 17) ∧
    submissions (swapHandler demoEnv ["0xA11ce", "0xB0b"]
        { demoForm with tokenIn := "0xAAAA", amountIn := "2.5", tokenOut := "0xBBBB" }) =
      [(.swap "0xAAAA" (25 * 10 ^ 17) "0xBBBB", { sender := some "0xA11ce", value := none })] :=
  ⟨rfl, swap_submits_converted_amount demoEnv ["0xA11ce", "0xB0b"]
    { demoForm with tokenIn := "0xAAAA", amountIn := "2.5", tokenOut := "0xBBBB" }
    (25 * 10 ^ 17) rfl⟩

/-- C8: in every run of the create-token handler and of the swap handler, the
notice is shown exactly when the submitted call settled successfully; when the
submission fails, the handler fails with that same error, shows no notice and
has submitted that one call only. -/
theorem notice_iff_submission_settled (env : Env) (accounts : List Account) (form : Form) :
    NoticeIffSettled env (createTokenHandler env accounts form) ∧
      NoticeIffSettled env (swapHandler env accounts form) := by
  constructor
  · cases hw : toWei form.tokenPrice with
    | error e =>
      rw [createTokenHandler_of_invalid env accounts form e hw]
      exact noticeIffSettled_of_no_effect env _
    | ok w =>
      rw [createTokenHandler_of_valid env accounts form w hw]
      exact noticeIffSettled_sendThenAlert env _ _ _
  · cases hw : toWei form.amountIn with
    | error e =>
      rw [swapHandler_of_invalid env accounts form e hw]
      exact noticeIffSettled_of_no_effect env _
    | ok w =>
      rw [swapHandler_of_valid env accounts form w hw]
      exact noticeIffSettled_sendThenAlert env _ _ _

set_option maxRecDepth 100000 in
/-- C8 at concrete wallets: with a wallet that settles every call the notice is
shown; with a ledger that rejects every submission the handler fails with the
rejection and shows nothing. -/
theorem notice_iff_submission_settled_witness :
    notices (createTokenHandler demoEnv ["0xA11ce"] demoForm) = ["Token request created!"] ∧
      notices (createTokenHandler rejectingEnv ["0xA11ce"] demoForm) = [] ∧
      (swapHandler rejectingEnv ["0xA11ce"] demoForm).result =
        .error (.rejected "User denied transaction signature") ∧
      NoticeIffSettled rejectingEnv (swapHandler rejectingEnv ["0xA11ce"] demoForm) :=
  ⟨by decide, by decide, rfl,
   (notice_iff_submission_settled rejectingEnv ["0xA11ce"] demoForm).2⟩

/-- C9: when the authorisation call fails with `e`, `initApp` fails with `e` and
leaves the page as it was, so that on the freshly loaded page no button has a
handler and a click produces no effect; when it succeeds, `initApp` succeeds and
every button has a handler. -/
theorem initApp_gated_by_authorization (env : Env) :
    (∀ e, env.requestAccounts = .error e →
      (∀ page, initApp env page = (.error e, page)) ∧
      (∀ b, (loaded env).onclick b = none) ∧
      ∀ b form, (click (loaded env) b form).trace = []) ∧
    (∀ accounts, env.requestAccounts = .ok accounts →
      (initApp env Page.blank).1 = .ok () ∧
      (loaded env).onclick .createTokenButton = some (createTokenHandler env accounts) ∧
      (loaded env).onclick .poolETHButton = some (poolETHHandler env accounts) ∧
      (loaded env).onclick .swapButton = some (swapHandler env accounts)) := by
  constructor
  · intro e he
    have hinit : ∀ page, initApp env page = (.error e, page) := by
      intro page
      simp [initApp, he]
    refine ⟨hinit, ?_, ?_⟩
    · intro b
      cases b <;> simp [loaded, hinit, Page.onclick, Page.blank]
    · intro b form
      cases b <;> simp [click, loaded, hinit, Page.onclick, Page.blank]
  · intro accounts hok
    simp [initApp, loaded, hok, Page.onclick]

/-- C9 at two concrete wallets: one refusing authorisation, one granting it. -/
theorem initApp_gated_by_authorization_witness :
    (initApp lockedEnv Page.blank).1 = .error (.rejected "User rejected the request") ∧
      (click (loaded lockedEnv) .swapButton demoForm).trace = [] ∧
      (initApp demoEnv Page.blank).1 = .ok () ∧
      (loaded demoEnv).onclick .swapButton = some (swapHandler demoEnv ["0xA11ce", "0xB0b"]) :=
  ⟨congrArg Prod.fst (((initApp_gated_by_authorization lockedEnv).1 _ rfl).1 Page.blank),
   ((initApp_gated_by_authorization lockedEnv).1 _ rfl).2.2 .swapButton demoForm,
   ((initApp_gated_by_authorization demoEnv).2 _ rfl).1,
   ((initApp_gated_by_authorization demoEnv).2 _ rfl).2.2.2⟩

set_option maxRecDepth 100000 in
/-- C10: for price "0" and total supply "1000" the create-token handler rejects
nothing itself: it submits exactly one call, `createTokenRequest(0, "1000")`,
the total supply unconverted, with payable value the number zero. -/
theorem createToken_price_zero (env : Env) (accounts : List Account) (form : Form) :
    submissions (createTokenHandler env accounts
        { form with tokenPrice := "0", totalSupply := "1000" }) =
      [(.createTokenRequest 0 "1000",
        { sender := accounts[0]?, value := some (.number (.finite false 0 0)) })] ∧
    (JSNumber.finite false 0 0).toRat? = some 0 := by
  have hw : toWei "0" = .ok 0 := by rfl
  constructor
  · rw [createTokenHandler_of_valid env accounts _ 0 hw, submissions_sendThenAlert]
    have hv : (toNumber 0).mul pointSeven = .finite false 0 0 := by decide
    rw [hv]
  · simp [JSNumber.toRat?]

end Comp4541
